import Mathlib

/-!
Shallow embedding of the kirho single-header C++ library: the `result_t<T, E>`
success/error sum type and the `defer_t` scope guard.

The repository contains several near-identical revisions of the same header.
Following the spec, the most complete revision (the one with Doxygen `@file`
comments, `src/unnamed/part_001` lines 380-682) is the baseline; the revision
installed at `src/include/kirho/kirho.hpp` differs only in `is_error`, whose
divergent body is embedded here under the separate name `is_error_v1`.

Modelling conventions:
  * `result_t` keeps the C++ layout: a `Bool` discriminant `m_success` and a
    `std::variant<T, E>` payload `m_union`, modelled as `T ⊕ E`.
  * `std::get<T>(m_union)` can fail (bad_variant_access) when the wrong
    alternative is live, so `getT`/`getE` return `Option`; every method that
    calls `std::get` is wrapped in `Option`, `none` being the abnormal path.
    On factory-built values the discriminant and payload agree, so the
    abnormal path never arises in the theorems below.
  * `unwrap`/`except` write to `std::cerr` and may call `std::terminate`;
    their observable behaviour is the `mres` type: `ok value output` (normal
    return together with the text written to the diagnostic channel),
    `terminated output` (the process ended after writing `output`), or
    `badAccess` (`std::get` on the wrong alternative).
  * `except`'s variadic `printable` arguments are modelled as the list of
    their textual renderings (`List String`); the C++ fold expression
    `(std::cerr << ... << values)` concatenates them with no separators,
    which is `String.join`.
  * `handle_error`'s callback is modelled as a state transformer
    `E → σ → σ`; the returned state records the handler invocations.
  * The C++ accessor methods are `const`-qualified and assign to no member,
    so the post-state of the receiver is the receiver itself; the `...S`
    wrappers make that post-state explicit for the frame theorems.
  * `defer_t`'s destructor body is `m_f();`: it invokes the stored action
    once.  C++ destroys automatic objects of a scope in reverse declaration
    order on every exit path, so `scopeExit` runs the destructors of the
    declared guards in reverse list order and concatenates their traces.
-/

namespace kirho

/-- The payload storage, `std::variant<T, E>` with alternative 0 = `T`. -/
def variantTE (T E : Type) : Type := T ⊕ E

/-- Access `std::get<T>` on the variant: the value when alternative `T` is live,
`none` (bad_variant_access) otherwise. -/
def getT {T E : Type} : T ⊕ E → Option T
  | Sum.inl v => some v
  | Sum.inr _ => none

/-- Access `std::get<E>` on the variant: the value when alternative `E` is live,
`none` (bad_variant_access) otherwise. -/
def getE {T E : Type} : T ⊕ E → Option E
  | Sum.inl _ => none
  | Sum.inr e => some e

/-- Class `kirho::result_t<T, E>`: a boolean discriminant plus the variant payload,
exactly the two data members of the C++ class. -/
structure result_t (T E : Type) where
  m_success : Bool
  m_union : T ⊕ E
deriving DecidableEq

/-- Observable behaviour of a method that may write diagnostics and may
terminate the process. -/
inductive mres (T : Type) where
  | ok (value : T) (output : String)
  | terminated (output : String)
  | badAccess
deriving DecidableEq

namespace result_t

/-- Factory `static auto success(T value) -> result_t<T, E>` (the baseline
defaults the argument): builds the success branch. -/
def success {T E : Type} (value : T) : result_t T E :=
  { m_success := true, m_union := Sum.inl value }

/-- Factory `static auto error(E error) -> result_t<T, E>` (the baseline
defaults the argument): builds the error branch. -/
def error {T E : Type} (err : E) : result_t T E :=
  { m_success := false, m_union := Sum.inr err }

/-- Call `success()` with the baseline's defaulted argument, a
value-initialised `T`, modelled by the `Inhabited` default. -/
def successDefault {T E : Type} [Inhabited T] : result_t T E :=
  success default

/-- Call `error()` with the baseline's defaulted argument, a
value-initialised `E`, modelled by the `Inhabited` default. -/
def errorDefault {T E : Type} [Inhabited E] : result_t T E :=
  error default

/-- Method `auto is_success(T& value) const -> bool`: when `m_success`, assigns
`std::get<T>(m_union)` to the out-parameter; returns `m_success`.  The result
pairs the returned bool with the final contents of the out-parameter. -/
def is_success {T E : Type} (r : result_t T E) (value : T) :
    Option (Bool × T) :=
  if r.m_success then
    match getT r.m_union with
    | some v => some (r.m_success, v)
    | none => none
  else
    some (r.m_success, value)

/-- Method `auto is_error(E& error) const -> bool`, baseline revision
(`src/unnamed/part_001` lines 557-565): when `!m_success`, assigns
`std::get<E>(m_union)` to the out-parameter; returns `!m_success`. -/
def is_error {T E : Type} (r : result_t T E) (err : E) :
    Option (Bool × E) :=
  if !r.m_success then
    match getE r.m_union with
    | some e => some (!r.m_success, e)
    | none => none
  else
    some (!r.m_success, err)

/-- Method `auto is_error(E& error) const -> bool` as found in
`src/include/kirho/kirho.hpp` lines 42-50 (and the two earlier revisions in
`src/unnamed/part_001`): same assignment, but the function returns
`m_success` instead of `!m_success`. -/
def is_error_v1 {T E : Type} (r : result_t T E) (err : E) :
    Option (Bool × E) :=
  if !r.m_success then
    match getE r.m_union with
    | some e => some (r.m_success, e)
    | none => none
  else
    some (r.m_success, err)

/-- Method `auto to_optional() const -> std::optional<T>`: wraps the success value,
or yields the empty optional on the error branch.  The outer `Option` is the
abnormal `std::get` path; the inner `Option` is the returned
`std::optional<T>`. -/
def to_optional {T E : Type} (r : result_t T E) : Option (Option T) :=
  if r.m_success then
    match getT r.m_union with
    | some v => some (some v)
    | none => none
  else
    some none

/-- Method `auto unwrap() const -> T`: on the error branch writes the fixed message
to `std::cerr` and calls `std::terminate`; otherwise returns
`std::get<T>(m_union)` with nothing written. -/
def unwrap {T E : Type} (r : result_t T E) : mres T :=
  if !r.m_success then
    mres.terminated "result_t::unwrap called on error value.\n"
  else
    match getT r.m_union with
    | some v => mres.ok v ""
    | none => mres.badAccess

/-- Method `template <printable_t... S> auto except(S... values) const -> T`: on the
error branch folds the arguments into `std::cerr` with no separators, writes
`'\n'`, and calls `std::terminate`; otherwise returns the success value with
nothing written. -/
def except {T E : Type} (r : result_t T E) (values : List String) : mres T :=
  if !r.m_success then
    mres.terminated (String.join values ++ "\n")
  else
    match getT r.m_union with
    | some v => mres.ok v ""
    | none => mres.badAccess

/-- Method `template <error_handler_t<E> F> auto handle_error(F handler) const ->
void`: on the error branch calls `handler(std::get<E>(m_union))` once;
otherwise does nothing.  The handler is a state transformer and the returned
state records its invocations; `some` means the method returned normally. -/
def handle_error {T E σ : Type} (r : result_t T E) (handler : E → σ → σ)
    (s : σ) : Option σ :=
  if !r.m_success then
    match getE r.m_union with
    | some e => some (handler e s)
    | none => none
  else
    some s

/-- Wrapper: `is_success` with the post-state of the `const` receiver made explicit:
the body assigns to no member, so the receiver is returned unchanged. -/
def is_successS {T E : Type} (r : result_t T E) (value : T) :
    Option (Bool × T) × result_t T E :=
  (r.is_success value, r)

/-- Wrapper: `is_error` (baseline) with the post-state of the `const` receiver made
explicit. -/
def is_errorS {T E : Type} (r : result_t T E) (err : E) :
    Option (Bool × E) × result_t T E :=
  (r.is_error err, r)

/-- Wrapper: `to_optional` with the post-state of the `const` receiver made
explicit. -/
def to_optionalS {T E : Type} (r : result_t T E) :
    Option (Option T) × result_t T E :=
  (r.to_optional, r)

/-- Wrapper: `unwrap` with the post-state of the `const` receiver made explicit. -/
def unwrapS {T E : Type} (r : result_t T E) : mres T × result_t T E :=
  (r.unwrap, r)

/-- Wrapper: `except` with the post-state of the `const` receiver made explicit. -/
def exceptS {T E : Type} (r : result_t T E) (values : List String) :
    mres T × result_t T E :=
  (r.except values, r)

/-- Wrapper: `handle_error` with the post-state of the `const` receiver made
explicit. -/
def handle_errorS {T E σ : Type} (r : result_t T E) (handler : E → σ → σ)
    (s : σ) : Option σ × result_t T E :=
  (r.handle_error handler s, r)

end result_t

/-- Guard `kirho::defer_t<F>`: stores the zero-argument action `m_f` passed to the
constructor.  Actions are modelled by an opaque label of type `F`; running an
action is recorded as its label appearing in a trace. -/
structure defer_t (F : Type) where
  m_f : F

/-- Destructor `~defer_t()` with body `m_f();`: the destructor invokes the stored action
exactly once, producing a one-event trace. -/
def defer_t.dtor {F : Type} (g : defer_t F) : List F :=
  [g.m_f]

/-- Leaving a scope in which the guards `gs` were declared in list order:
C++ runs the destructors of automatic objects in reverse declaration order on
every exit path, and each `defer_t` destructor contributes its trace. -/
def scopeExit {F : Type} (gs : List (defer_t F)) : List F :=
  List.flatten (gs.reverse.map defer_t.dtor)

end kirho

/-- C1: the claim states that `is_error` returns true exactly on the error
branch and false exactly on the success branch.  The revision installed at
`src/include/kirho/kirho.hpp` returns `m_success`, so on
`result_t<int,int>::error(666)` it returns `false` (while still writing `666`
to the out-parameter) and on `result_t<int,int>::success(420)` it returns
`true`; the part_001 baseline revision returns `!m_success` and satisfies the
claim at the same inputs. -/
theorem C1_is_error_inverted_in_hpp :
    (kirho.result_t.is_error_v1
        (kirho.result_t.error 666 : kirho.result_t Nat Nat) 0
      = some (false, 666))
    ∧ (kirho.result_t.is_error_v1
        (kirho.result_t.success 420 : kirho.result_t Nat Nat) 0
      = some (true, 0))
    ∧ (kirho.result_t.is_error
        (kirho.result_t.error 666 : kirho.result_t Nat Nat) 0
      = some (true, 666))
    ∧ (kirho.result_t.is_error
        (kirho.result_t.success 420 : kirho.result_t Nat Nat) 0
      = some (false, 0)) := by
  refine ⟨rfl, rfl, rfl, rfl⟩

/-- C2: `success(v).is_success(out)` returns true and sets `out = v`;
`error(e).is_success(out)` returns false and leaves `out` unchanged.  Both
calls complete normally (`some`). -/
theorem C2_is_success_contract (T E : Type) (v : T) (e : E) (out : T) :
    ((kirho.result_t.success v : kirho.result_t T E).is_success out
      = some (true, v))
    ∧ ((kirho.result_t.error e : kirho.result_t T E).is_success out
      = some (false, out)) := by
  exact ⟨rfl, rfl⟩

/-- C3: `success(v).unwrap()` returns `v` having written nothing to the
diagnostic channel and without terminating; `error(e).unwrap()` writes the
fixed message and terminates, and that message is non-empty. -/
theorem C3_unwrap_contract (T E : Type) (v : T) (e : E) :
    ((kirho.result_t.success v : kirho.result_t T E).unwrap
      = kirho.mres.ok v "")
    ∧ ((kirho.result_t.error e : kirho.result_t T E).unwrap
      = kirho.mres.terminated "result_t::unwrap called on error value.\n")
    ∧ ("result_t::unwrap called on error value.\n" ≠ "") := by
  exact ⟨rfl, rfl, by decide⟩

/-- C4: `success(v).except(values...)` returns `v` with nothing written and no
termination; `error(e).except(values...)` writes exactly the supplied values
concatenated in order with no separators, followed by one newline, then
terminates. -/
theorem C4_except_contract (T E : Type) (v : T) (e : E)
    (values : List String) :
    ((kirho.result_t.success v : kirho.result_t T E).except values
      = kirho.mres.ok v "")
    ∧ ((kirho.result_t.error e : kirho.result_t T E).except values
      = kirho.mres.terminated (String.join values ++ "\n")) := by
  exact ⟨rfl, rfl⟩

/-- C5: `error(e).handle_error(h)` applies the handler exactly once, to `e`
(the final state is one application of `h e` to the initial state), returns
normally (`some`) and produces no value beyond the handler's effect;
`success(v).handle_error(h)` returns normally with the handler never
applied. -/
theorem C5_handle_error_contract (T E σ : Type) (v : T) (e : E)
    (h : E → σ → σ) (s : σ) :
    ((kirho.result_t.error e : kirho.result_t T E).handle_error h s
      = some (h e s))
    ∧ ((kirho.result_t.success v : kirho.result_t T E).handle_error h s
      = some s) := by
  exact ⟨rfl, rfl⟩

/-- C6: the claim states that exactly one of `is_success`/`is_error` reports
true on every factory-built Result.  With the `is_error` revision installed at
`src/include/kirho/kirho.hpp` (`is_error_v1`), `result_t<int,int>::success(420)`
is reported as BOTH a success and an error (both calls return true), and
`result_t<int,int>::error(666)` as NEITHER (both return false); the part_001
baseline `is_error` restores mutual exclusivity at the same inputs. -/
theorem C6_exclusivity_broken_in_hpp :
    (kirho.result_t.is_success
        (kirho.result_t.success 420 : kirho.result_t Nat Nat) 0
      = some (true, 420))
    ∧ (kirho.result_t.is_error_v1
        (kirho.result_t.success 420 : kirho.result_t Nat Nat) 7
      = some (true, 7))
    ∧ (kirho.result_t.is_success
        (kirho.result_t.error 666 : kirho.result_t Nat Nat) 0
      = some (false, 0))
    ∧ (kirho.result_t.is_error_v1
        (kirho.result_t.error 666 : kirho.result_t Nat Nat) 7
      = some (false, 666))
    ∧ (kirho.result_t.is_error
        (kirho.result_t.success 420 : kirho.result_t Nat Nat) 7
      = some (false, 7))
    ∧ (kirho.result_t.is_error
        (kirho.result_t.error 666 : kirho.result_t Nat Nat) 7
      = some (true, 666)) := by
  refine ⟨rfl, rfl, rfl, rfl, rfl, rfl⟩

/-- C7: `success(v).to_optional()` completes normally and yields a present
optional holding `v`; `error(e).to_optional()` completes normally and yields
the absent optional, discarding the error payload. -/
theorem C7_to_optional_contract (T E : Type) (v : T) (e : E) :
    ((kirho.result_t.success v : kirho.result_t T E).to_optional
      = some (some v))
    ∧ ((kirho.result_t.error e : kirho.result_t T E).to_optional
      = some none) := by
  exact ⟨rfl, rfl⟩

/-- C8: on scope exit the trace contains each declared guard's action exactly
once, in reverse declaration order (the trace is exactly the reversed list of
the guards' actions, so an action fires once per guard that holds it and only
through that guard's destruction); in particular for two guards declared G1
then G2, G2's action completes before G1's action starts. -/
theorem C8_scope_guard_order (F : Type) (gs : List (kirho.defer_t F))
    (g1 g2 : kirho.defer_t F) :
    (kirho.scopeExit gs = (gs.map kirho.defer_t.m_f).reverse)
    ∧ (kirho.scopeExit [g1, g2] = [g2.m_f, g1.m_f]) := by
  constructor
  · induction gs with
    | nil => rfl
    | cons g rest ih =>
        simp [kirho.scopeExit, kirho.defer_t.dtor] at ih ⊢
        exact ih
  · rfl

/-- C9: in the baseline revision, `success()` called with no argument builds a
success-branch Result holding the value-initialised `T` (observed through
`is_success`: returns true and writes that default value), and `error()`
called with no argument builds an error-branch Result holding the
value-initialised `E` (observed through `is_error`). -/
theorem C9_default_factories (T E : Type) [Inhabited T] [Inhabited E]
    (out : T) (oute : E) :
    ((kirho.result_t.successDefault : kirho.result_t T E).is_success out
      = some (true, (default : T)))
    ∧ ((kirho.result_t.errorDefault : kirho.result_t T E).is_error oute
      = some (true, (default : E))) := by
  exact ⟨rfl, rfl⟩

/-- C10: every accessor is a `const` method that assigns to no member, so each
call leaves the Result (discriminant and payload) unchanged, on both branches;
consequently `unwrap` and `except` can be called repeatedly on `success(v)`
and every call returns `v` (with nothing written). -/
theorem C10_accessors_frame (T E σ : Type) (r : kirho.result_t T E)
    (out : T) (oute : E) (values : List String) (h : E → σ → σ) (s : σ)
    (v : T) :
    ((r.is_successS out).2 = r)
    ∧ ((r.is_errorS oute).2 = r)
    ∧ (r.to_optionalS.2 = r)
    ∧ (r.unwrapS.2 = r)
    ∧ ((r.exceptS values).2 = r)
    ∧ ((r.handle_errorS h s).2 = r)
    ∧ ((kirho.result_t.success v : kirho.result_t T E).unwrapS.1
      = kirho.mres.ok v "")
    ∧ (((kirho.result_t.success v : kirho.result_t T E).unwrapS.2).unwrapS.1
      = kirho.mres.ok v "")
    ∧ (((kirho.result_t.success v : kirho.result_t T E).exceptS values).1
      = kirho.mres.ok v "")
    ∧ ((((kirho.result_t.success v : kirho.result_t T E).exceptS
        values).2.exceptS values).1
      = kirho.mres.ok v "") := by
  exact ⟨rfl, rfl, rfl, rfl, rfl, rfl, rfl, rfl, rfl, rfl⟩
